import Mathlib

/-!
Verification of the slackreact bot runtime (`_bot.py`, `_rules.py`).

Events are decoded JSON objects, handled in Python as
`defaultdict(lambda: None, event_dict)`.  We embed them as association
lists from string keys to a small value type `Val`; `defaultdict`
lookup is total and inserts the default for missing keys, which we
model explicitly since rules observe the shared mapping.
-/

namespace Slackreact

/-- A Python value stored in an event mapping: either `None` or a string.
(The fields the pipeline reads — `type`, `channel`, `user`, `text`,
`thread_ts` — are strings or null in decoded frames.) -/
inductive Val where
  | none : Val
  | str (s : String) : Val
  deriving DecidableEq, Repr

/-- An event: a finite mapping from string keys to values, in insertion
order, as a Python `dict` holds it. -/
abbrev Event := List (String × Val)

/-- Plain `dict.__getitem__`: `some v` when the key is present, `none`
standing for the `KeyError` fault on an absent key. -/
def dict_getitem (e : Event) (k : String) : Option Val :=
  (e.find? (fun p => p.1 = k)).map (·.2)

/-- `defaultdict(lambda: None)` lookup, read part: total, yielding
`Val.none` for an absent key. -/
def dget (e : Event) (k : String) : Val :=
  (dict_getitem e k).getD Val.none

/-- `defaultdict(lambda: None).__getitem__`: returns the value and the
updated mapping — a missing key is inserted, bound to the default. -/
def dgetM (e : Event) (k : String) : Val × Event :=
  match dict_getitem e k with
  | some v => (v, e)
  | none => (Val.none, e ++ [(k, Val.none)])

/-- `dict.__setitem__`: overwrite the binding if the key is present,
append it otherwise. -/
def dset (e : Event) (k : String) (v : Val) : Event :=
  match e with
  | [] => [(k, v)]
  | p :: rest => if p.1 = k then (k, v) :: rest else p :: dset rest k v

/-- String-keyed association-table lookup (a Python `dict.get` on a
`Dict[str, str]` table such as `id_to_channel`). -/
def tbl_get (tbl : List (String × String)) (k : String) : Option String :=
  (tbl.find? (fun p => p.1 = k)).map (·.2)

@[simp] theorem dget_nil (k : String) : dget [] k = Val.none := rfl

/-- A `defaultdict` default-insertion is invisible to further lookups:
the inserted binding is the default the lookup would have produced. -/
theorem dget_dgetM (e : Event) (k k' : String) :
    dget (dgetM e k').2 k = dget e k := by
  unfold dgetM
  cases h : dict_getitem e k' with
  | some v => rfl
  | none =>
    show dget (e ++ [(k', Val.none)]) k = dget e k
    unfold dget dict_getitem at *
    induction e with
    | nil =>
      simp only [List.nil_append, List.find?]
      by_cases hk : k' = k <;> simp [List.find?, hk]
    | cons p rest ih =>
      simp only [List.find?, List.cons_append]
      cases hp : (decide (p.1 = k')) with
      | true =>
        simp only [List.find?_cons, hp] at h
        simp at h
      | false =>
        simp only [List.find?_cons, hp] at h
        by_cases hpk : p.1 = k
        · simp [List.find?_cons, hpk]
        · simp only [List.find?_cons, decide_eq_false hpk]
          exact ih h

/-- Reading via `dgetM` yields the same value as the pure `dget`. -/
theorem dgetM_fst (e : Event) (k : String) : (dgetM e k).1 = dget e k := by
  unfold dgetM dget
  cases h : dict_getitem e k <;> simp [h]

/-- `dset` updates the addressed binding. -/
theorem dget_dset_same (e : Event) (k : String) (v : Val) :
    dget (dset e k v) k = v := by
  induction e with
  | nil => simp [dset, dget, dict_getitem, List.find?]
  | cons p rest ih =>
    unfold dset
    by_cases hp : p.1 = k
    · simp [hp, dget, dict_getitem, List.find?]
    · simp only [if_neg hp]
      unfold dget dict_getitem at *
      simp only [List.find?_cons, decide_eq_false hp]
      exact ih

/-- `dset` leaves every other binding unchanged. -/
theorem dget_dset_other (e : Event) (k k' : String) (v : Val) (h : k' ≠ k) :
    dget (dset e k v) k' = dget e k' := by
  induction e with
  | nil =>
    have hne : ¬ (k = k') := fun hh => h hh.symm
    simp [dset, dget, dict_getitem, List.find?, hne]
  | cons p rest ih =>
    unfold dset
    by_cases hp : p.1 = k
    · unfold dget dict_getitem
      have hne : ¬ (k = k') := fun hh => h hh.symm
      simp [List.find?_cons, hp, hne]
    · simp only [if_neg hp]
      unfold dget dict_getitem at *
      simp only [List.find?_cons]
      by_cases hpk : p.1 = k'
      · simp [hpk]
      · simp only [decide_eq_false hpk]
        exact ih

/-!
Rule pipeline (`_rules.py`).  A rule's overridable points that the
pipeline consults are its channel filter (`should_respond_to_channel`)
and message predicate (`should_respond_to_message`); the event filter
`SlackRule.should_respond_to_event` is the fixed default composition
shared by every rule class in the repository.
-/

/-- The overridable parts of a `SlackRule` that
`should_respond_to_event` consults. -/
structure Rule where
  channel_filter : Val → Bool
  message_filter : Event → Bool

/-- `SlackRule.should_respond_to_channel` (the default): resolve the
channel id through the directory's `id_to_channel` table; an unresolved
id (unknown channel, or a null channel field, which can never be a key
of the string-keyed table) yields `False`; a resolved name is tested
for membership in the rule's applicable-channel list. -/
def should_respond_to_channel (id_to_channel : List (String × String))
    (applicable_channels : List String) (channel_id : Val) : Bool :=
  let channel_name : Option String :=
    match channel_id with
    | Val.str s => tbl_get id_to_channel s
    | Val.none => Option.none
  match channel_name with
  | Option.none => false
  | some name => applicable_channels.contains name

/-- `SlackRule.should_respond_to_event`: the default event filter.
Returns the decision together with the event mapping as left after the
filter ran, since `defaultdict` reads insert missing keys and the
null-text normalization writes `""` into the shared mapping. -/
def should_respond_to_event (r : Rule) (e : Event) : Bool × Event :=
  let (ty, e1) := dgetM e "type"
  if ty ≠ Val.str "message" then (false, e1)
  else
    let (ch, e2) := dgetM e1 "channel"
    if ¬ r.channel_filter ch then (false, e2)
    else
      let (tx, e3) := dgetM e2 "text"
      let e4 := if tx = Val.none then dset e3 "text" (Val.str "") else e3
      (r.message_filter e4, e4)

/-- Python `text.lower()`: lowercase the text character by
character. -/
def str_lower (s : String) : String :=
  ⟨s.data.map Char.toLower⟩

/-- Python `q in s` on strings: substring containment. -/
def str_contains (s q : String) : Bool :=
  decide (q.data <:+: s.data)

/-- `MessageContainsRule.should_respond_to_message`, as a function of
the message text: `any(q in text.lower() for q in queries)`.  Note the
source lowercases the text but not the query strings. -/
def contains_should_respond (queries : List String) (text : String) : Bool :=
  queries.any (fun q => str_contains (str_lower text) q)

/-- The matching predicate as the spec words it (`Modelled from the
spec` for comparison only): some query appears case-insensitively as a
substring of the text, i.e. both sides are compared lowercased. -/
def contains_should_respond_spec (queries : List String) (text : String) : Bool :=
  queries.any (fun q => str_contains (str_lower text) (str_lower q))

/-!
Dispatcher (`SlackBot._process_event` / `SlackBot._handle_futures`).

A rule's `react` task is arbitrary user code run under asyncio; from
the dispatcher's point of view each task in a batch either completed
(having submitted its actions through `api_call`), raised an exception,
or was still unfinished at the 20-second `asyncio.wait` deadline.  The
dispatcher is embedded as a function of those per-task outcomes.
-/

/-- An outbound action: the keyword mapping passed to `api_call`
(method plus parameters). -/
abbrev Action := List (String × Val)

/-- What one `_react_to_rule(rule)` task did, as observed at the
`asyncio.wait(futures, timeout=20)` join. -/
inductive TaskOutcome where
  | completed (actions : List Action)
  | raised (errMsg : String)
  | pending
  deriving DecidableEq, Repr

/-- One `log_and_report` emission (log entry, mirrored to the operator
when `report_to_user` is set): either a timeout report or an error
report, each rendering the readable event when one was supplied. -/
inductive Report where
  | timeout (readable : Option Event)
  | error (errMsg : String) (readable : Option Event)
  deriving DecidableEq, Repr

/-- `SlackBot.get_readable_event`: copy the event and add
`channel_name` / `user_name` resolved through the directory tables.
`event.get("channel", "")` defaults only an absent key, so a present
null value reaches the table lookup (and resolves to nothing). -/
def get_readable_event (id_to_user id_to_channel : List (String × String))
    (e : Event) : Event :=
  let chan : Val := (dict_getitem e "channel").getD (Val.str "")
  let user : Val := (dict_getitem e "user").getD (Val.str "")
  let resolve : List (String × String) → Val → Val := fun tbl v =>
    match v with
    | Val.str s => match tbl_get tbl s with
      | some name => Val.str name
      | Option.none => Val.none
    | Val.none => Val.none
  dset (dset e "channel_name" (resolve id_to_channel chan))
    "user_name" (resolve id_to_user user)

/-- The futures of a batch still pending at the 20-second deadline,
with their positions: these are the tasks `_handle_futures` cancels. -/
def cancelled_tasks (outcomes : List TaskOutcome) : List Nat :=
  (outcomes.enum.filter (fun p => p.2 = TaskOutcome.pending)).map (·.1)

/-- `SlackBot._handle_futures`: one timeout report per pending future
(each cancelled), then one error report per future that raised; results
of other futures are untouched. -/
def handle_futures (outcomes : List TaskOutcome) (readable : Option Event) :
    List Report :=
  (outcomes.filter (fun o => o = TaskOutcome.pending)).map
    (fun _ => Report.timeout readable)
  ++ outcomes.filterMap (fun o =>
      match o with
      | TaskOutcome.raised m => some (Report.error m readable)
      | _ => Option.none)

/-- The actions a batch submitted to `api_call`: each completed
`_react_to_rule` task submitted its rule's responses in order. -/
def submitted_actions (outcomes : List TaskOutcome) : List Action :=
  outcomes.flatMap (fun o =>
    match o with
    | TaskOutcome.completed acts => acts
    | _ => [])

/-- The result of `_process_event` on one event: which rule reaction
tasks were launched (by position), which were cancelled, the actions
submitted, the reports emitted, and the event mapping as left behind. -/
structure ProcessResult where
  launched : List Nat
  cancelled : List Nat
  submitted : List Action
  reports : List Report
  dmLogged : Bool
  finalEvent : Event
  deriving DecidableEq, Repr

/-- Python truthiness of an event value: `None` and `""` are falsy. -/
def val_truthy : Val → Bool
  | Val.none => false
  | Val.str s => s ≠ ""

/-- `SlackBot._process_event`: wrap the decoded frame in a
`defaultdict`, drop the event when its `user` is the bot's own id
(`self.me`) before building any reaction task, otherwise launch one
`_react_to_rule` task per rule and join them via `_handle_futures`
with the readable event as context. -/
def process_event (me : String)
    (id_to_user id_to_channel : List (String × String))
    (event_dict : Event) (outcomes : List TaskOutcome) : ProcessResult :=
  let (user, e1) := dgetM event_dict "user"
  if user = Val.str me then
    { launched := [], cancelled := [], submitted := [], reports := [],
      dmLogged := false, finalEvent := e1 }
  else
    -- `event["type"] == "message" and event["channel"] and
    -- event["channel"].startswith("D")` — `and` short-circuits, so the
    -- channel is only read (and default-inserted) for message events.
    let (ty, e2) := dgetM e1 "type"
    let (isDm, e3) :=
      if ty = Val.str "message" then
        let (ch, e2') := dgetM e2 "channel"
        (val_truthy ch &&
          (match ch with
           | Val.str s => s.startsWith "D"
           | Val.none => false), e2')
      else (false, e2)
    let readable := get_readable_event id_to_user id_to_channel e3
    { launched := List.range outcomes.length
      cancelled := cancelled_tasks outcomes
      submitted := submitted_actions outcomes
      reports := handle_futures outcomes (some readable)
      dmLogged := isDm
      finalEvent := e3 }

/-!
Pagination (`SlackBot.paginated_api_call`).  The server's successive
responses are modelled as a list of pages consumed in request order;
each response carries the `collect_key` field (its items) and
`response.get("response_metadata", {}).get("next_cursor")`, which is
`none` when the metadata or the key is absent.
-/

/-- One server response to a (paginated) `api_call`. -/
structure Page (α : Type) where
  items : List α
  next_cursor : Option String
  deriving DecidableEq, Repr

/-- Python truthiness of the extracted cursor: absent (`None`) and the
empty string are falsy, so `while next_cursor:` stops on both. -/
def cursor_truthy : Option String → Bool
  | Option.none => false
  | some s => s ≠ ""

/-- The parameters of one issued `api_call` that the pagination logic
controls: the fixed `limit` and the `cursor` (absent on the first
call). -/
structure ApiRequest where
  limit : Nat
  cursor : Option String
  deriving DecidableEq, Repr

/-- The `while next_cursor:` loop body: request the next page, extend
the accumulated items, re-extract the cursor. -/
def page_loop {α : Type} : Option String → List (Page α) → List α
  | c, [] => if cursor_truthy c then [] else []
  | c, p :: rest =>
    if cursor_truthy c then p.items ++ page_loop p.next_cursor rest else []

/-- `SlackBot.paginated_api_call`: first call, then follow the cursor;
returns the concatenated `collect_key` items. -/
def paginated_api_call {α : Type} (pages : List (Page α)) : List α :=
  match pages with
  | [] => []
  | p :: rest => p.items ++ page_loop p.next_cursor rest

/-- The requests the loop issues against a given server trace, with the
parameters the code sets (`limit = 300`; the cursor of the previous
response on every call after the first). -/
def page_loop_requests {α : Type} : Option String → List (Page α) → List ApiRequest
  | c, [] => if cursor_truthy c then [] else []
  | c, p :: rest =>
    if cursor_truthy c then
      { limit := 300, cursor := c } :: page_loop_requests p.next_cursor rest
    else []

/-- All requests of one `paginated_api_call`. -/
def paginated_requests {α : Type} (pages : List (Page α)) : List ApiRequest :=
  match pages with
  | [] => [{ limit := 300, cursor := Option.none }]
  | p :: _rest =>
    { limit := 300, cursor := Option.none } :: page_loop_requests p.next_cursor pages.tail

/-- `paginated_api_call` as the spec words it (`Modelled from the
spec` for comparison only): repeat while the response metadata contains
a cursor, i.e. stop exactly when the cursor is absent. -/
def page_loop_spec {α : Type} : Option String → List (Page α) → List α
  | c, [] => if c.isSome then [] else []
  | c, p :: rest =>
    if c.isSome then p.items ++ page_loop_spec p.next_cursor rest else []

/-- Spec-worded pagination: stops exactly when the cursor is absent. -/
def paginated_api_call_spec {α : Type} (pages : List (Page α)) : List α :=
  match pages with
  | [] => []
  | p :: rest => p.items ++ page_loop_spec p.next_cursor rest

/-!
Connection receive loop (`SlackBot.run`).  One iteration of the inner
`while True:` observes either a received frame, a socket failure, or
the 20-second idle timeout followed by the outcome of the heartbeat
probe `asyncio.wait_for(ws.ping(), timeout=10)`.  The exception routing
of the source is embedded as data: `asyncio.TimeoutError` from `recv`
is caught by the inner `except` (which then pings);
`websockets.ConnectionClosed` anywhere is caught by the outer `except`,
restarting the handshake; any other exception escapes `run`.
-/

/-- What one iteration of the receive loop observes. -/
inductive PingResult where
  | pong
  | closed
  | timedOut
  deriving DecidableEq, Repr

/-- The observation driving one iteration: a frame within 20s, the
socket raising `ConnectionClosed` during `recv`, or the idle timeout
followed by the heartbeat probe's result. -/
inductive LoopObs where
  | frame (msg : String)
  | recvClosed
  | idleTimeout (ping : PingResult)
  deriving DecidableEq, Repr

/-- Where control goes after the iteration. -/
inductive StepOutcome where
  /-- the frame is decoded and `_process_event` is launched; the loop
  keeps receiving on the same connection -/
  | dispatched (msg : String)
  /-- the heartbeat succeeded; the loop keeps receiving -/
  | heartbeatOk
  /-- `websockets.ConnectionClosed` was caught by the outer `except`:
  back to the top of the outer loop, i.e. a fresh `rtm.connect`
  handshake, directory reload and rule re-`load()` -/
  | reconnect
  /-- an uncaught exception propagates out of `run`, terminating it -/
  | fatal
  deriving DecidableEq, Repr

/-- One iteration of the `Connected` receive loop of `SlackBot.run`.
`asyncio.wait_for(ws.ping(), timeout=10)` raising
`asyncio.TimeoutError` inside the `except asyncio.TimeoutError:`
handler is caught by neither the inner handler (already active) nor the
outer `except websockets.ConnectionClosed`, so it escapes `run`. -/
def receive_loop_step : LoopObs → StepOutcome
  | LoopObs.frame msg => StepOutcome.dispatched msg
  | LoopObs.recvClosed => StepOutcome.reconnect
  | LoopObs.idleTimeout PingResult.pong => StepOutcome.heartbeatOk
  | LoopObs.idleTimeout PingResult.closed => StepOutcome.reconnect
  | LoopObs.idleTimeout PingResult.timedOut => StepOutcome.fatal

/-- The prefix of the server trace the loop actually consumes: the
first response always, then further responses as long as the previous
response's cursor was truthy. -/
def consumed_pages {α : Type} : List (Page α) → List (Page α)
  | [] => []
  | p :: rest =>
    p :: (if cursor_truthy p.next_cursor then consumed_pages rest else [])

/-- A rule whose channel filter and message predicate accept
everything, exercising the full default pipeline. -/
def accept_all_rule : Rule :=
  { channel_filter := fun _ => true, message_filter := fun _ => true }

/-- A message event whose decoded `text` field is null. -/
def null_text_event : Event :=
  [("type", Val.str "message"), ("channel", Val.str "C042"),
   ("user", Val.str "U7"), ("text", Val.none)]

/-- A server trace whose first response carries a present but empty
cursor (as the live API sends on the last page). -/
def empty_cursor_pages : List (Page Nat) :=
  [⟨[1, 2], some ""⟩, ⟨[3], Option.none⟩]

/-- A 3-page server trace of sizes (100, 100, 50). -/
def three_pages : List (Page Nat) :=
  [⟨List.range 100, some "cur1"⟩, ⟨List.range 100, some "cur2"⟩,
   ⟨List.range 50, Option.none⟩]

/-! ## Theorems -/

/-- C1: an inbound event whose `user` field equals the bot's own
identity is dropped by `_process_event` before any reaction task is
built: no rule's `react` runs, no action is submitted, and no report is
emitted for that event. -/
theorem self_events_dropped (me : String)
    (id_to_user id_to_channel : List (String × String))
    (event_dict : Event) (outcomes : List TaskOutcome)
    (h : dget event_dict "user" = Val.str me) :
    (process_event me id_to_user id_to_channel event_dict outcomes).launched = [] ∧
    (process_event me id_to_user id_to_channel event_dict outcomes).submitted = [] ∧
    (process_event me id_to_user id_to_channel event_dict outcomes).reports = [] ∧
    (process_event me id_to_user id_to_channel event_dict outcomes).cancelled = [] := by
  have h1 : (dgetM event_dict "user").1 = Val.str me := by
    rw [dgetM_fst]; exact h
  unfold process_event
  rw [show dgetM event_dict "user" =
      (Val.str me, (dgetM event_dict "user").2) from by
    rw [← h1]]
  simp

/-- Witness for C1 at a concrete self-authored event. -/
theorem self_events_dropped_witness :
    (process_event "U0SELF" [] [] [("type", Val.str "message"), ("user", Val.str "U0SELF")]
      [TaskOutcome.completed [[("method", Val.str "chat.postMessage")]]]).launched = [] ∧
    (process_event "U0SELF" [] [] [("type", Val.str "message"), ("user", Val.str "U0SELF")]
      [TaskOutcome.completed [[("method", Val.str "chat.postMessage")]]]).submitted = [] ∧
    (process_event "U0SELF" [] [] [("type", Val.str "message"), ("user", Val.str "U0SELF")]
      [TaskOutcome.completed [[("method", Val.str "chat.postMessage")]]]).reports = [] ∧
    (process_event "U0SELF" [] [] [("type", Val.str "message"), ("user", Val.str "U0SELF")]
      [TaskOutcome.completed [[("method", Val.str "chat.postMessage")]]]).cancelled = [] :=
  self_events_dropped "U0SELF" [] []
    [("type", Val.str "message"), ("user", Val.str "U0SELF")]
    [TaskOutcome.completed [[("method", Val.str "chat.postMessage")]]] (by decide)

/-- C7: for every rule (any channel filter, any message predicate) and
every event whose `type` field is not `"message"`, the default
`should_respond_to_event` returns `false`, whatever the event's other
content. -/
theorem nonmessage_events_rejected (r : Rule) (e : Event)
    (h : dget e "type" ≠ Val.str "message") :
    (should_respond_to_event r e).1 = false := by
  have h1 : (dgetM e "type").1 ≠ Val.str "message" := by
    rw [dgetM_fst]; exact h
  unfold should_respond_to_event
  rw [show dgetM e "type" = ((dgetM e "type").1, (dgetM e "type").2) from rfl]
  simp [h1]

/-- Witness for C7: a `reaction_added` event with message-like content
is rejected by a rule whose filters accept everything. -/
theorem nonmessage_events_rejected_witness :
    (should_respond_to_event
      { channel_filter := fun _ => true, message_filter := fun _ => true }
      [("type", Val.str "reaction_added"), ("channel", Val.str "C1"),
       ("text", Val.str "love me")]).1 = false :=
  nonmessage_events_rejected
    { channel_filter := fun _ => true, message_filter := fun _ => true }
    [("type", Val.str "reaction_added"), ("channel", Val.str "C1"),
     ("text", Val.str "love me")] (by decide)

/-- C9: event lookup is total — it agrees with plain `dict` lookup on
present keys and yields the defined absent value `Val.none`, never a
`KeyError` fault, on absent keys; the value-and-update lookup used
during dispatch reads the same value. -/
theorem event_lookup_total (e : Event) (k : String) :
    dget e k = (dict_getitem e k).getD Val.none ∧
    (dict_getitem e k = Option.none →
      dget e k = Val.none ∧ (dgetM e k).1 = Val.none) := by
  refine ⟨rfl, fun h => ⟨?_, ?_⟩⟩
  · unfold dget; rw [h]; rfl
  · rw [dgetM_fst]; unfold dget; rw [h]; rfl

/-- Witness for C9: looking up `thread_ts` in an event that lacks it. -/
theorem event_lookup_total_witness :
    dget [("type", Val.str "message")] "thread_ts" =
      (dict_getitem [("type", Val.str "message")] "thread_ts").getD Val.none ∧
    (dict_getitem [("type", Val.str "message")] "thread_ts" = Option.none →
      dget [("type", Val.str "message")] "thread_ts" = Val.none ∧
      (dgetM [("type", Val.str "message")] "thread_ts").1 = Val.none) :=
  event_lookup_total [("type", Val.str "message")] "thread_ts"

/-- C10: the default `should_respond_to_channel` returns `false`
whenever the channel id does not resolve through `id_to_channel`
(an id absent from the table, or a null channel field), for every
applicable-channel list; a resolved name is exactly tested for list
membership. -/
theorem unknown_channel_rejected (id_to_channel : List (String × String))
    (applicable_channels : List String) :
    (∀ s : String, tbl_get id_to_channel s = Option.none →
      should_respond_to_channel id_to_channel applicable_channels (Val.str s) = false) ∧
    should_respond_to_channel id_to_channel applicable_channels Val.none = false ∧
    (∀ (s name : String), tbl_get id_to_channel s = some name →
      should_respond_to_channel id_to_channel applicable_channels (Val.str s) =
        applicable_channels.contains name) := by
  refine ⟨fun s h => ?_, rfl, fun s name h => ?_⟩
  · simp only [should_respond_to_channel, h]
  · simp only [should_respond_to_channel, h]

/-- Witness for C10 on a one-entry directory: the unknown id `C9`
and a null channel are rejected even though the applicable list would
match; the known id `C1` resolves to a membership test. -/
theorem unknown_channel_rejected_witness :
    should_respond_to_channel [("C1", "random")] ["random"] (Val.str "C9") = false ∧
    should_respond_to_channel [("C1", "random")] ["random"] Val.none = false ∧
    should_respond_to_channel [("C1", "random")] ["random"] (Val.str "C1") =
      (["random"].contains "random") :=
  ⟨(unknown_channel_rejected [("C1", "random")] ["random"]).1 "C9" (by decide),
   (unknown_channel_rejected [("C1", "random")] ["random"]).2.1,
   (unknown_channel_rejected [("C1", "random")] ["random"]).2.2 "C1" "random" (by decide)⟩

/-- C4 counterexample: `MessageContainsRule` lowercases the message
text but matches the query strings verbatim, so the upper-cased query
`"LOVE ME"` fails against text `"love me"` although the spec predicate
(both sides lowercased) matches — the result is not invariant under a
case change of the query. -/
theorem contains_query_case_counterexample :
    contains_should_respond ["love me"] "love me" = true ∧
    contains_should_respond ["LOVE ME"] "love me" = false ∧
    contains_should_respond_spec ["LOVE ME"] "love me" = true := by
  decide

/-- C4 amended: `contains_should_respond` is true iff some query
occurs verbatim as a substring of the lowercased message text; it is
therefore unchanged under any change of letter case of the message
text (but not of the queries), and case-insensitive for the lowercase
query strings the rules declare. -/
theorem contains_match_characterization (queries : List String) (t t' : String)
    (h : str_lower t = str_lower t') :
    contains_should_respond queries t = contains_should_respond queries t' ∧
    (contains_should_respond queries t = true ↔
      ∃ q ∈ queries, q.data <:+: (str_lower t).data) := by
  constructor
  · unfold contains_should_respond str_contains
    rw [h]
  · unfold contains_should_respond str_contains
    simp [List.any_eq_true]

/-- Witness for C4 (amended), on the spec's own example: query
`"love me"` against `"Does anyone love me?"` and an upper-cased
variant of the same text. -/
theorem contains_match_characterization_witness :
    contains_should_respond ["love me"] "Does anyone love me?" =
      contains_should_respond ["love me"] "DOES ANYONE LOVE ME?" ∧
    (contains_should_respond ["love me"] "Does anyone love me?" = true ↔
      ∃ q ∈ ["love me"], q.data <:+: (str_lower "Does anyone love me?").data) :=
  contains_match_characterization ["love me"] "Does anyone love me?"
    "DOES ANYONE LOVE ME?" (by decide)

/-- C8 counterexample: the null-text normalization of
`should_respond_to_event` writes `""` into the shared event mapping —
the stored `text` binding changes from null to the empty string, so
the event observed after the filter differs from the decoded one. -/
theorem event_mutation_counterexample :
    dict_getitem null_text_event "text" = some Val.none ∧
    dict_getitem (should_respond_to_event accept_all_rule null_text_event).2 "text" =
      some (Val.str "") ∧
    (should_respond_to_event accept_all_rule null_text_event).2 ≠ null_text_event := by
  decide

/-- C8 amended: the default event filter's only changes to the event
mapping, as observed through event lookup, are at the `text` key: every
other key reads as before, and `text` reads as `""` exactly when a
message-typed event passing the channel filter carried a null (or
absent) text — the normalized text is what later readers of the shared
mapping observe. -/
theorem event_mutation_frame (r : Rule) (e : Event) :
    (∀ k, k ≠ "text" → dget (should_respond_to_event r e).2 k = dget e k) ∧
    dget (should_respond_to_event r e).2 "text" =
      (if dget e "type" = Val.str "message" ∧
          r.channel_filter (dget e "channel") = true ∧
          dget e "text" = Val.none
       then Val.str "" else dget e "text") := by
  unfold should_respond_to_event
  rw [show dgetM e "type" = ((dgetM e "type").1, (dgetM e "type").2) from rfl]
  simp only [dgetM_fst]
  by_cases hty : dget e "type" = Val.str "message"
  · simp only [hty, ne_eq, not_true_eq_false, if_false, ite_not]
    rw [show dgetM (dgetM e "type").2 "channel" =
        ((dgetM (dgetM e "type").2 "channel").1, (dgetM (dgetM e "type").2 "channel").2) from rfl]
    simp only [dgetM_fst, dget_dgetM]
    by_cases hch : r.channel_filter (dget e "channel") = true
    · simp only [hch, if_true]
      rw [show dgetM (dgetM (dgetM e "type").2 "channel").2 "text" =
          ((dgetM (dgetM (dgetM e "type").2 "channel").2 "text").1,
           (dgetM (dgetM (dgetM e "type").2 "channel").2 "text").2) from rfl]
      simp only [dgetM_fst, dget_dgetM]
      by_cases htx : dget e "text" = Val.none
      · simp only [htx, if_true]
        refine ⟨fun k hk => ?_, ?_⟩
        · rw [dget_dset_other _ _ _ _ hk, dget_dgetM, dget_dgetM, dget_dgetM]
        · rw [dget_dset_same]
          simp [hty, hch, htx]
      · simp only [htx, if_false]
        refine ⟨fun k hk => ?_, ?_⟩
        · rw [dget_dgetM, dget_dgetM, dget_dgetM]
        · rw [dget_dgetM, dget_dgetM, dget_dgetM]
          simp [htx]
    · simp only [hch, Bool.false_eq_true, if_false]
      refine ⟨fun k hk => ?_, ?_⟩
      · rw [dget_dgetM, dget_dgetM]
      · rw [dget_dgetM, dget_dgetM]
        simp [hch]
  · simp only [hty, ne_eq, not_false_eq_true, if_true]
    refine ⟨fun k hk => dget_dgetM e k "type", ?_⟩
    rw [dget_dgetM]
    simp [hty]

/-- Witness for C8 (amended): on the null-text message event, the
`user` binding is untouched and the `text` binding reads as the
normalized empty string. -/
theorem event_mutation_frame_witness :
    dget (should_respond_to_event accept_all_rule null_text_event).2 "user" =
      dget null_text_event "user" ∧
    dget (should_respond_to_event accept_all_rule null_text_event).2 "text" =
      (if dget null_text_event "type" = Val.str "message" ∧
          accept_all_rule.channel_filter (dget null_text_event "channel") = true ∧
          dget null_text_event "text" = Val.none
       then Val.str "" else dget null_text_event "text") :=
  ⟨(event_mutation_frame accept_all_rule null_text_event).1 "user" (by decide),
   (event_mutation_frame accept_all_rule null_text_event).2⟩

/-- A raised exception in one future of a batch yields its own error
report from `_handle_futures`, whatever the other futures did. -/
theorem error_report_of_raised (outcomes : List TaskOutcome)
    (readable : Option Event) (msg : String)
    (h : TaskOutcome.raised msg ∈ outcomes) :
    Report.error msg readable ∈ handle_futures outcomes readable := by
  unfold handle_futures
  refine List.mem_append.mpr (Or.inr ?_)
  exact List.mem_filterMap.mpr ⟨TaskOutcome.raised msg, h, rfl⟩

/-- A completed future's actions were submitted contiguously and in
order within the batch's overall submissions. -/
theorem completed_actions_submitted (outcomes : List TaskOutcome)
    (acts : List Action) (h : TaskOutcome.completed acts ∈ outcomes) :
    acts <:+: submitted_actions outcomes := by
  induction outcomes with
  | nil => cases h
  | cons o rest ih =>
    rcases List.mem_cons.mp h with h1 | h1
    · subst h1
      unfold submitted_actions
      simp only [List.flatMap_cons]
      exact List.IsPrefix.isInfix (List.prefix_append _ _)
    · have hi := ih h1
      unfold submitted_actions at *
      simp only [List.flatMap_cons]
      exact List.IsInfix.trans hi (List.IsSuffix.isInfix (List.suffix_append _ _))

/-- C2 (dispatcher isolation): in one batch over one event not
authored by the bot, a rule whose reaction raised gets its exception
caught and reported individually (the report carrying the readable
event), while another rule that completed with a non-empty action list
still has its actions submitted, and the batch still joins every
launched task. -/
theorem dispatch_isolation (me : String)
    (id_to_user id_to_channel : List (String × String))
    (event_dict : Event) (outcomes : List TaskOutcome)
    (msg : String) (acts : List Action)
    (hme : dget event_dict "user" ≠ Val.str me)
    (hraise : TaskOutcome.raised msg ∈ outcomes)
    (hdone : TaskOutcome.completed acts ∈ outcomes)
    (_hne : acts ≠ []) :
    (∃ rd : Event, Report.error msg (some rd) ∈
      (process_event me id_to_user id_to_channel event_dict outcomes).reports) ∧
    acts <:+: (process_event me id_to_user id_to_channel event_dict outcomes).submitted ∧
    (process_event me id_to_user id_to_channel event_dict outcomes).launched =
      List.range outcomes.length := by
  have h1 : (dgetM event_dict "user").1 ≠ Val.str me := by
    rw [dgetM_fst]; exact hme
  unfold process_event
  rw [show dgetM event_dict "user" =
      ((dgetM event_dict "user").1, (dgetM event_dict "user").2) from rfl]
  simp only [if_neg h1]
  exact ⟨⟨_, error_report_of_raised outcomes _ msg hraise⟩,
    completed_actions_submitted outcomes acts hdone, by trivial⟩

/-- Witness for C2: rule A raises, rule B answers with one
`chat.postMessage` action; B's action is submitted and A's error is
reported. -/
theorem dispatch_isolation_witness :
    (∃ rd : Event, Report.error "boom" (some rd) ∈
      (process_event "U0SELF" [] [] [("type", Val.str "message"), ("user", Val.str "U1")]
        [TaskOutcome.raised "boom",
         TaskOutcome.completed [[("method", Val.str "chat.postMessage")]]]).reports) ∧
    [[("method", Val.str "chat.postMessage")]] <:+:
      (process_event "U0SELF" [] [] [("type", Val.str "message"), ("user", Val.str "U1")]
        [TaskOutcome.raised "boom",
         TaskOutcome.completed [[("method", Val.str "chat.postMessage")]]]).submitted ∧
    (process_event "U0SELF" [] [] [("type", Val.str "message"), ("user", Val.str "U1")]
      [TaskOutcome.raised "boom",
       TaskOutcome.completed [[("method", Val.str "chat.postMessage")]]]).launched =
      List.range 2 :=
  dispatch_isolation "U0SELF" [] []
    [("type", Val.str "message"), ("user", Val.str "U1")]
    [TaskOutcome.raised "boom",
     TaskOutcome.completed [[("method", Val.str "chat.postMessage")]]]
    "boom" [[("method", Val.str "chat.postMessage")]]
    (by decide) (by decide) (by decide) (by decide)

/-- A task is cancelled exactly when it was still pending at the
deadline. -/
theorem mem_cancelled_iff (outcomes : List TaskOutcome) (i : Nat) :
    i ∈ cancelled_tasks outcomes ↔ outcomes[i]? = some TaskOutcome.pending := by
  unfold cancelled_tasks
  rw [List.mem_map]
  constructor
  · rintro ⟨⟨j, o⟩, hmem, rfl⟩
    obtain ⟨h1, h2⟩ := List.mem_filter.mp hmem
    have ho : o = TaskOutcome.pending := by simpa using h2
    subst ho
    exact (List.mk_mem_enum_iff_getElem?).mp h1
  · intro h
    exact ⟨(i, TaskOutcome.pending),
      List.mem_filter.mpr ⟨(List.mk_mem_enum_iff_getElem?).mpr h, by simp⟩, rfl⟩

theorem length_filter_enumFrom (n : Nat) (l : List TaskOutcome) :
    ((List.enumFrom n l).filter (fun p => p.2 = TaskOutcome.pending)).length =
    (l.filter (fun o => o = TaskOutcome.pending)).length := by
  induction l generalizing n with
  | nil => rfl
  | cons o rest ih =>
    simp only [List.enumFrom, List.filter]
    cases h : decide (o = TaskOutcome.pending) with
    | true => simp only [List.length_cons, ih]
    | false => exact ih (n + 1)

/-- One task cancelled, one timeout report: the batch reports exactly
as many timeouts as it cancels, and every timeout report renders the
supplied event context. -/
theorem timeout_reports_match_cancelled (outcomes : List TaskOutcome)
    (readable : Option Event) :
    (handle_futures outcomes readable).count (Report.timeout readable) =
      (cancelled_tasks outcomes).length := by
  unfold handle_futures cancelled_tasks
  rw [List.count_append, List.length_map, List.enum, length_filter_enumFrom]
  have h1 : ((outcomes.filter (fun o => o = TaskOutcome.pending)).map
      (fun _ => Report.timeout readable)).count (Report.timeout readable) =
      (outcomes.filter (fun o => o = TaskOutcome.pending)).length := by
    rw [List.count_eq_length.mpr, List.length_map]
    intro b hb
    obtain ⟨o, _, h⟩ := List.mem_map.mp hb
    exact h
  have h2 : (outcomes.filterMap (fun o =>
      match o with
      | TaskOutcome.raised m => some (Report.error m readable)
      | _ => Option.none)).count (Report.timeout readable) = 0 := by
    rw [List.count_eq_zero]
    intro hmem
    obtain ⟨o, _, ho⟩ := List.mem_filterMap.mp hmem
    cases o <;> simp_all
  rw [h1, h2, Nat.add_zero]

/-- A pending future in the batch yields a timeout report rendering
the supplied event context. -/
theorem timeout_report_of_pending (outcomes : List TaskOutcome)
    (readable : Option Event) (h : TaskOutcome.pending ∈ outcomes) :
    Report.timeout readable ∈ handle_futures outcomes readable := by
  unfold handle_futures
  refine List.mem_append.mpr (Or.inl ?_)
  exact List.mem_map.mpr ⟨TaskOutcome.pending,
    List.mem_filter.mpr ⟨h, by simp⟩, rfl⟩

/-- C3 (dispatcher deadline): a reaction task still unfinished at the
20-second `asyncio.wait` deadline is cancelled and a timeout report
carrying the readable event context is emitted — one report per
cancelled task, and emitting them raises nothing further in the model —
while every task of the same batch that completed keeps its submitted
actions. -/
theorem dispatch_timeout (me : String)
    (id_to_user id_to_channel : List (String × String))
    (event_dict : Event) (outcomes : List TaskOutcome) (i : Nat)
    (hme : dget event_dict "user" ≠ Val.str me)
    (hp : outcomes[i]? = some TaskOutcome.pending) :
    i ∈ (process_event me id_to_user id_to_channel event_dict outcomes).cancelled ∧
    (∃ rd : Event,
      Report.timeout (some rd) ∈
        (process_event me id_to_user id_to_channel event_dict outcomes).reports ∧
      (process_event me id_to_user id_to_channel event_dict outcomes).reports.count
          (Report.timeout (some rd)) =
        (process_event me id_to_user id_to_channel event_dict outcomes).cancelled.length) ∧
    (∀ acts : List Action, TaskOutcome.completed acts ∈ outcomes →
      acts <:+: (process_event me id_to_user id_to_channel event_dict outcomes).submitted) := by
  have h1 : (dgetM event_dict "user").1 ≠ Val.str me := by
    rw [dgetM_fst]; exact hme
  unfold process_event
  rw [show dgetM event_dict "user" =
      ((dgetM event_dict "user").1, (dgetM event_dict "user").2) from rfl]
  simp only [if_neg h1]
  exact ⟨(mem_cancelled_iff outcomes i).mpr hp,
    ⟨_, timeout_report_of_pending outcomes _ (List.getElem?_mem hp),
      timeout_reports_match_cancelled outcomes _⟩,
    fun acts h => completed_actions_submitted outcomes acts h⟩

/-- Witness for C3: a batch of a pending task and a completed task —
the pending one (index 0) is cancelled and reported with the event
context, the completed one's action is still submitted. -/
theorem dispatch_timeout_witness :
    0 ∈ (process_event "U0SELF" [] [] [("type", Val.str "message"), ("user", Val.str "U1")]
      [TaskOutcome.pending,
       TaskOutcome.completed [[("method", Val.str "chat.postMessage")]]]).cancelled ∧
    (∃ rd : Event,
      Report.timeout (some rd) ∈
        (process_event "U0SELF" [] [] [("type", Val.str "message"), ("user", Val.str "U1")]
          [TaskOutcome.pending,
           TaskOutcome.completed [[("method", Val.str "chat.postMessage")]]]).reports ∧
      (process_event "U0SELF" [] [] [("type", Val.str "message"), ("user", Val.str "U1")]
        [TaskOutcome.pending,
         TaskOutcome.completed [[("method", Val.str "chat.postMessage")]]]).reports.count
          (Report.timeout (some rd)) =
        (process_event "U0SELF" [] [] [("type", Val.str "message"), ("user", Val.str "U1")]
          [TaskOutcome.pending,
           TaskOutcome.completed [[("method", Val.str "chat.postMessage")]]]).cancelled.length) ∧
    (∀ acts : List Action,
      TaskOutcome.completed acts ∈
        [TaskOutcome.pending,
         TaskOutcome.completed [[("method", Val.str "chat.postMessage")]]] →
      acts <:+: (process_event "U0SELF" [] [] [("type", Val.str "message"), ("user", Val.str "U1")]
        [TaskOutcome.pending,
         TaskOutcome.completed [[("method", Val.str "chat.postMessage")]]]).submitted) :=
  dispatch_timeout "U0SELF" [] []
    [("type", Val.str "message"), ("user", Val.str "U1")]
    [TaskOutcome.pending,
     TaskOutcome.completed [[("method", Val.str "chat.postMessage")]]] 0
    (by decide) (by decide)

/-- C6 counterexample: on a trace whose first response carries a
present but *empty* cursor, the code stops after one request (the
`while next_cursor:` test is falsy) although the response metadata does
contain a cursor — the spec-worded loop, which stops exactly when the
cursor is absent, would fetch the second page too. -/
theorem pagination_empty_cursor_counterexample :
    paginated_api_call empty_cursor_pages = [1, 2] ∧
    paginated_api_call_spec empty_cursor_pages = [1, 2, 3] ∧
    (paginated_requests empty_cursor_pages).length = 1 := by
  decide

theorem page_loop_eq_consumed {α : Type} (c : Option String)
    (rest : List (Page α)) :
    page_loop c rest =
      (if cursor_truthy c then consumed_pages rest else []).flatMap Page.items := by
  induction rest generalizing c with
  | nil =>
    unfold page_loop consumed_pages
    cases cursor_truthy c <;> simp
  | cons p rest' ih =>
    unfold page_loop consumed_pages
    cases cursor_truthy c with
    | false => simp
    | true =>
      simp only [if_true, List.flatMap_cons]
      rw [ih p.next_cursor]

theorem page_loop_requests_length {α : Type} (c : Option String)
    (rest : List (Page α)) :
    (page_loop_requests c rest).length =
      (if cursor_truthy c then consumed_pages rest else []).length := by
  induction rest generalizing c with
  | nil =>
    unfold page_loop_requests consumed_pages
    cases cursor_truthy c <;> simp
  | cons p rest' ih =>
    unfold page_loop_requests consumed_pages
    cases cursor_truthy c with
    | false => simp
    | true =>
      simp only [if_true, List.length_cons]
      rw [ih p.next_cursor]

theorem page_loop_requests_limit {α : Type} (c : Option String)
    (rest : List (Page α)) :
    ∀ r ∈ page_loop_requests c rest, r.limit = 300 := by
  induction rest generalizing c with
  | nil =>
    unfold page_loop_requests
    cases cursor_truthy c <;> simp
  | cons p rest' ih =>
    unfold page_loop_requests
    cases cursor_truthy c with
    | false => simp
    | true =>
      simp only [if_true]
      intro r hr
      rcases List.mem_cons.mp hr with h | h
      · subst h; rfl
      · exact ih p.next_cursor r h

/-- Every consumed page except possibly the last was followed: its
cursor was truthy (pagination repeated exactly while the cursor was
non-empty). -/
theorem consumed_pages_cursors {α : Type} (pages : List (Page α)) :
    ∀ q ∈ (consumed_pages pages).dropLast, cursor_truthy q.next_cursor = true := by
  induction pages with
  | nil => intro q hq; cases hq
  | cons p rest ih =>
    unfold consumed_pages
    cases hc : cursor_truthy p.next_cursor with
    | false =>
      intro q hq
      simp at hq
    | true =>
      simp only [if_true]
      intro q hq
      cases hrest : consumed_pages rest with
      | nil => rw [hrest] at hq; cases hq
      | cons q0 qrest =>
        rw [hrest, List.dropLast_cons₂] at hq
        rcases List.mem_cons.mp hq with h | h
        · subst h; exact hc
        · exact ih q (by rw [hrest]; exact h)

/-- C6 amended: every request carries the fixed page size 300; the
result is the concatenation, in server order with no reordering or
deduplication, of the `collect_key` items of exactly the consumed
pages; one request is issued per consumed page; and pagination repeats
exactly while the returned cursor is non-empty — it stops when the
cursor is absent *or empty*. -/
theorem pagination_characterization {α : Type} (p : Page α)
    (rest : List (Page α)) :
    (∀ r ∈ paginated_requests (p :: rest), r.limit = 300) ∧
    paginated_api_call (p :: rest) =
      (consumed_pages (p :: rest)).flatMap Page.items ∧
    (paginated_requests (p :: rest)).length =
      (consumed_pages (p :: rest)).length ∧
    (∀ q ∈ (consumed_pages (p :: rest)).dropLast,
      cursor_truthy q.next_cursor = true) := by
  refine ⟨?_, ?_, ?_, consumed_pages_cursors (p :: rest)⟩
  · intro r hr
    unfold paginated_requests at hr
    rcases List.mem_cons.mp hr with h | h
    · subst h; rfl
    · exact page_loop_requests_limit p.next_cursor _ r h
  · show p.items ++ page_loop p.next_cursor rest =
      (consumed_pages (p :: rest)).flatMap Page.items
    unfold consumed_pages
    rw [page_loop_eq_consumed]
    simp
  · unfold paginated_requests consumed_pages
    simp only [List.length_cons, List.tail_cons]
    rw [page_loop_requests_length]

set_option maxRecDepth 10000 in
/-- Witness for C6 (amended) on the 3-page trace of sizes
(100, 100, 50): the concatenated result has all 250 items in original
order. -/
theorem pagination_characterization_witness :
    ((∀ r ∈ paginated_requests three_pages, r.limit = 300) ∧
     paginated_api_call three_pages =
       (consumed_pages three_pages).flatMap Page.items ∧
     (paginated_requests three_pages).length =
       (consumed_pages three_pages).length ∧
     (∀ q ∈ (consumed_pages three_pages).dropLast,
       cursor_truthy q.next_cursor = true)) ∧
    (paginated_api_call three_pages).length = 250 ∧
    paginated_api_call three_pages =
      List.range 100 ++ List.range 100 ++ List.range 50 :=
  ⟨pagination_characterization ⟨List.range 100, some "cur1"⟩
      [⟨List.range 100, some "cur2"⟩, ⟨List.range 50, Option.none⟩],
   by decide, by decide⟩

/-- C5: evaluating the receive loop at the double heartbeat timeout.
The 20-second idle timeout fires and the 10-second heartbeat probe
itself times out: the resulting `asyncio.TimeoutError` is raised inside
the `except asyncio.TimeoutError:` handler and matches neither that
handler nor the outer `except websockets.ConnectionClosed:`, so it
escapes `run` and the run terminates — control does **not** return to
handshaking.  A heartbeat that instead raises `ConnectionClosed` is the
path that reconnects. -/
theorem heartbeat_double_timeout_fatal :
    receive_loop_step (LoopObs.idleTimeout PingResult.timedOut) = StepOutcome.fatal ∧
    receive_loop_step (LoopObs.idleTimeout PingResult.timedOut) ≠ StepOutcome.reconnect ∧
    receive_loop_step (LoopObs.idleTimeout PingResult.closed) = StepOutcome.reconnect ∧
    receive_loop_step LoopObs.recvClosed = StepOutcome.reconnect := by
  decide

end Slackreact
